import Mathlib

/-!
Shallow embedding of the catalog-reconciliation core of the `bibliophile`
repository (src/bibliophile/bibliocommons.py and src/lookup.py), together
with theorems settling the frozen claims about it.

Conventions used throughout:
* Python exceptions are modelled by `Except PyError`; the distinct Python
  exception classes raised by this code become constructors of `PyError`
  (exception message texts are kept where the source spells them out,
  with ASCII punctuation).
* Python strings are Lean `String`s; `str.isdigit` is modelled for the
  ASCII digits that the catalog item ids consist of; `None` becomes
  `Option`, and Python truthiness of an optional string (`if x:`) is
  `pyTruthy` (false exactly on `None` and the empty string).
* `urllib.parse.urlsplit(url).path` is modelled by `urlsplitPath`, which
  covers the URL shapes this program handles: absolute URLs with a
  `scheme://netloc/...` prefix and scheme-less relative references.
* BeautifulSoup documents are modelled by the `Node` tree; `find` is
  first-match preorder search over descendants, and `.text` concatenates
  all descendant text, exactly as the soup operations used by the source.
* `grequests.imap` yields responses in completion order; the model uses
  submission order (the claims at issue do not depend on response order,
  and the source itself documents the output as unordered).
-/

/-- The distinct Python exceptions raised by the embedded code:
`UnstableAPIError` (bibliocommons.py line 41), the `ValueError` guarding
query size (line 76), and the builtin `AttributeError` (raised by attribute
access on `None` and by assignment to a `namedtuple` field; its message is
abstracted away). -/
inductive PyError where
  | unstableAPI (msg : String)
  | valueError (msg : String)
  | attributeError
deriving Repr, DecidableEq

/-- Decidable equality for `Except` results (not derived in core). -/
instance exceptDecEq {ε α : Type _} [DecidableEq ε] [DecidableEq α] :
    DecidableEq (Except ε α) := fun x y =>
  match x, y with
  | .error a, .error b =>
      if h : a = b then isTrue (by rw [h]) else isFalse (fun hh => h (Except.error.inj hh))
  | .ok a, .ok b =>
      if h : a = b then isTrue (by rw [h]) else isFalse (fun hh => h (Except.ok.inj hh))
  | .error _, .ok _ => isFalse (fun hh => Except.noConfusion hh)
  | .ok _, .error _ => isFalse (fun hh => Except.noConfusion hh)

/-- Python truthiness of an optional string: `None` and `""` are falsy. -/
def pyTruthy : Option String → Bool
  | none => false
  | some s => !(s == "")

/-- Python `str.isdigit` for ASCII strings: nonempty and all digits. -/
def str_isdigit (s : String) : Bool :=
  !s.isEmpty && s.toList.all Char.isDigit

/-- Python `int(s)` on a string of ASCII digits. -/
def pyInt (s : String) : Nat :=
  s.toList.foldl (fun acc c => acc * 10 + (c.toNat - 48)) 0

/-- Python `str.split(c)` for a one-character separator, on char lists:
splits at every occurrence, keeping empty parts (`"a//b"` gives
`["a", "", "b"]`, `""` gives `[""]`). -/
def splitChar (sep : Char) : List Char → List (List Char)
  | [] => [[]]
  | x :: xs =>
      let r := splitChar sep xs
      if x == sep then [] :: r
      else (x :: r.headD []) :: r.tailD []

/-- Python `str.split(c)` on strings. -/
def pySplit (sep : Char) (s : String) : List String :=
  (splitChar sep s.toList).map String.mk

/-- Longest prefix not containing `c`, and the remainder from `c` on. -/
def spanNe (c : Char) : List Char → List Char × List Char
  | [] => ([], [])
  | x :: xs =>
      if x == c then ([], x :: xs)
      else
        let r := spanNe c xs
        (x :: r.1, r.2)

/-- A valid URL scheme per urllib: a letter followed by letters, digits,
`+`, `-` or `.`. -/
def validScheme (cs : List Char) : Bool :=
  match cs with
  | [] => false
  | c :: rest =>
      c.isAlpha && rest.all (fun d => d.isAlphanum || d == '+' || d == '-' || d == '.')

/-- `urllib.parse.urlsplit(url).path`: drop everything from the first `#`
(fragment) and the first `?` (query); strip a valid `scheme:` prefix; if
the remainder starts with `//`, skip the netloc (up to the next `/`) and
the path is the rest; otherwise the remainder is the path. -/
def urlsplitPath (url : String) : String :=
  let cs0 := (splitChar '#' url.toList).headD []
  let cs := (splitChar '?' cs0).headD []
  let sr := spanNe ':' cs
  let afterScheme :=
    match sr.2 with
    | ':' :: r => if validScheme sr.1 then r else cs
    | _ => cs
  match afterScheme with
  | '/' :: '/' :: r => String.mk (spanNe '/' r).2
  | r => String.mk r

/-- Python `str.startswith(prefix)`. -/
def pyStartsWith (s pre : String) : Bool :=
  List.isPrefixOf pre.toList s.toList

/-- `BiblioParser.extract_item_id` (bibliocommons.py lines 87-105 and
lookup.py lines 128-146): take the link path, require the `/item/show/`
prefix, take the last path segment, take its part before the first `_`,
require it to be numeric, and return it as an integer. -/
def extract_item_id (rss_link : String) : Except PyError Nat :=
  let path := urlsplitPath rss_link
  if !(pyStartsWith path "/item/show/") then
    .error (.unstableAPI "RSS link format changed!")
  else
    let slug := (pySplit '/' path).getLastD ""
    let item_id := (pySplit '_' slug).headD ""
    if !(str_isdigit item_id) then
      .error (.unstableAPI "slug format changed!")
    else
      .ok (pyInt item_id)

/-- The book descriptor consumed by the query builder: the fields of
lookup.py's `Book` namedtuple (line 53) that `single_query` reads (the
goodreads.py descriptor carries the same three fields plus extras the
query builder never touches). An absent ISBN is the empty string
("Can be blank!", lookup.py line 84). -/
structure BookDescription where
  isbn : String
  title : String
  author : String
deriving Repr, DecidableEq

/-- `QueryBuilder.single_query` (bibliocommons.py lines 48-63, identical in
lookup.py lines 97-112): one boolean clause per book. A truthy ISBN gives
`identifier:(<isbn>)`; otherwise `contributor:(<author>)`, `title:(<title>)`
and, when `print_only`, `formatcode:(BK)`, joined by `" AND "` (dict
insertion order) and parenthesized exactly when there is more than one
rule. -/
def single_query (book : BookDescription) (print_only : Bool) : String :=
  let rules :=
    if book.isbn ≠ "" then
      ["identifier:(" ++ book.isbn ++ ")"]
    else
      ["contributor:(" ++ book.author ++ ")", "title:(" ++ book.title ++ ")"]
        ++ (if print_only then ["formatcode:(BK)"] else [])
  let query := String.intercalate " AND " rules
  if rules.length > 1 then "(" ++ query ++ ")" else query

/-- The string built by `QueryBuilder.bibliocommons_query` before its size
check (bibliocommons.py lines 71-72): the OR of the single queries, wrapped
and intersected with `available:"<branch>"` when the branch is truthy.
`single_query` is called with its default `print_only=True`. -/
def built_query (books : List BookDescription) (branch : Option String) : String :=
  let isbn_match := String.intercalate " OR " (books.map (fun b => single_query b true))
  if pyTruthy branch then
    "(" ++ isbn_match ++ ") available:\"" ++ branch.getD "" ++ "\""
  else
    isbn_match

/-- `QueryBuilder.bibliocommons_query` (bibliocommons.py lines 65-77,
identical in lookup.py lines 114-126): the built query, guarded by the
900-character ceiling (`raise ValueError(...)` when exceeded). -/
def bibliocommons_query (books : List BookDescription) (branch : Option String) :
    Except PyError String :=
  let query := built_query books branch
  if query.length > 900 then
    .error (.valueError "BiblioCommons queries are limited to 900 chars!")
  else
    .ok query

/-- Python `range(start, stop, step)` for a positive step. -/
def pyRange (start stop step : Nat) : List Nat :=
  (List.range ((stop - start + step - 1) / step)).map (fun k => start + k * step)

/-- `grouper` (bibliocommons.py lines 36-38, identical in lookup.py lines
43-45): `for i in range(0, len(l), n): yield l[i:i+n]`. -/
def grouper (input_list : List α) (chunk_size : Nat) : List (List α) :=
  (pyRange 0 input_list.length chunk_size).map
    (fun i => (input_list.drop i).take chunk_size)

/-- The search queries issued by `BiblioParser.catalog_results`
(bibliocommons.py lines 185-193): one `bibliocommons_query` per chunk of 10
books, one lookup request per query. -/
def catalog_queries (books : List BookDescription) (branch : Option String) :
    List (Except PyError String) :=
  (grouper books 10).map (fun chunk => bibliocommons_query chunk branch)

/-- A parsed HTML/XML document node, as BeautifulSoup presents it: an
element with a tag name, attributes, and children, or a text node. -/
inductive Node where
  | text (s : String)
  | elem (tag : String) (attrs : List (String × String)) (children : List Node)

/-- First value of an attribute in an attribute list. -/
def attrLookup (attrs : List (String × String)) (key : String) : Option String :=
  (attrs.find? (fun kv => kv.1 == key)).map (fun kv => kv.2)

/-- BeautifulSoup class matching: the `class` attribute is a
whitespace-separated multi-set and `class_=c` matches when `c` is one of
its entries. -/
def hasClass (attrs : List (String × String)) (c : String) : Bool :=
  match attrLookup attrs "class" with
  | none => false
  | some v => (pySplit ' ' v).contains c

mutual
/-- BeautifulSoup `find` on one subtree: the node itself if it matches,
else its first matching descendant in preorder. -/
def findFirstNode (p : String → List (String × String) → Bool) : Node → Option Node
  | .text _ => none
  | .elem t a c => if p t a then some (.elem t a c) else findFirst p c

/-- BeautifulSoup `find`: first element node, in preorder document order,
whose tag and attributes satisfy the predicate (searching a forest of
top-level nodes, as `soup.find` searches the whole document and
`tag.find` searches the tag's descendants). -/
def findFirst (p : String → List (String × String) → Bool) : List Node → Option Node
  | [] => none
  | n :: rest =>
      match findFirstNode p n with
      | some m => some m
      | none => findFirst p rest
end

mutual
/-- BeautifulSoup `.text` of one node: all its descendant text, in
document order. -/
def textOf : Node → String
  | .text s => s
  | .elem _ _ c => textOfList c

/-- BeautifulSoup `.text` of a forest. -/
def textOfList : List Node → String
  | [] => ""
  | n :: rest => textOf n ++ textOfList rest
end

/-- Children of a node (a text node has none). -/
def Node.childrenOf : Node → List Node
  | .text _ => []
  | .elem _ _ c => c

/-- The detail endpoint's response for one item: the parsed HTML fragment
found under the `html` key of the JSON envelope
(`full_record_response.json()["html"]`, already soup-parsed). -/
def DetailOracle := Nat → List Node

/-- `BiblioParser.get_call_number` (bibliocommons.py lines 178-183,
identical in lookup.py lines 192-197):
`soup.find(testid="callnum_branch").find("span", class_="value").text`.
When either `find` returns `None`, the chained attribute access on `None`
raises `AttributeError`. -/
def get_call_number (fragment : List Node) : Except PyError String :=
  match findFirst (fun _ attrs => attrLookup attrs "testid" == some "callnum_branch") fragment with
  | none => .error .attributeError
  | some branchNode =>
      match findFirst (fun tag attrs => tag == "span" && hasClass attrs "value") branchNode.childrenOf with
      | none => .error .attributeError
      | some span => .ok (textOf span)

/-- Decides whether a result is a raised `UnstableAPIError`. -/
def raisesUnstableAPI : Except PyError String → Bool
  | .error (.unstableAPI _) => true
  | _ => false

/-- The `Book` namedtuple of bibliocommons.py (lines 32-33): the partial
record parsed from one RSS search item. `full_record_link` is
`rss_item.link.text` and "Can be None!" (line 163); `call_number` is the
stripped sibling text of the `Call #:` label or `None` (line 146). As a
`namedtuple`, its instances are immutable: assigning to a field raises
`AttributeError`. -/
structure Book where
  title : String
  author : Option String
  description : String
  call_number : Option String
  cover_image : Option String
  full_record_link : Option String
deriving Repr, DecidableEq

/-- The first pass of `BiblioParser.__iter__` (bibliocommons.py lines
202-212) over the parsed catalog results: books with a truthy call number
are yielded; books without a truthy `full_record_link` produce a warning
log naming their title; for the rest, `async_record` extracts the item id
from the link (raising `UnstableAPIError` out of the generator when the
link shape is wrong) and appends a pending full-record request. Returns
(books yielded, pending (item id, book) requests, warning messages, raised
exception if any); on an exception the items after it are never
processed. -/
def biblioWave1 : List Book → List Book × List (Nat × Book) × List String × Option PyError
  | [] => ([], [], [], none)
  | b :: rest =>
      if pyTruthy b.call_number then
        let r := biblioWave1 rest
        (b :: r.1, r.2.1, r.2.2.1, r.2.2.2)
      else if !(pyTruthy b.full_record_link) then
        let r := biblioWave1 rest
        (r.1, r.2.1, ("No link given for " ++ b.title ++ ", cannot get call #") :: r.2.2.1, r.2.2.2)
      else
        match extract_item_id (b.full_record_link.getD "") with
        | .error ex => ([], [], [], some ex)
        | .ok item_id =>
            let r := biblioWave1 rest
            (r.1, (item_id, b) :: r.2.1, r.2.2.1, r.2.2.2)

/-- The second pass of `BiblioParser.__iter__` (bibliocommons.py lines
214-218): for each pending full-record response,
`book.call_number = self.get_call_number(response)` then `yield book`.
`get_call_number` may raise `AttributeError` itself; when it succeeds, the
assignment to a field of the `Book` namedtuple raises `AttributeError`
("cannot set attribute") before anything is yielded. Returns (books
yielded, raised exception if any). -/
def biblioWave2 (oracle : DetailOracle) : List (Nat × Book) → List Book × Option PyError
  | [] => ([], none)
  | (item_id, _b) :: _rest =>
      match get_call_number (oracle item_id) with
      | .error ex => ([], some ex)
      | .ok _v => ([], some .attributeError)

/-- `BiblioParser.__iter__` of bibliocommons.py (lines 195-218), starting
from the parsed catalog results (what `catalog_results()` yields) and a
detail oracle giving each pending item's full-record fragment: run the
first pass; if it raised, the generator ends with that exception after the
books already yielded; otherwise run the second pass over the pending
requests. Returns (books yielded, warnings, raised exception if any). -/
def biblioIter (oracle : DetailOracle) (books : List Book) :
    List Book × List String × Option PyError :=
  match (biblioWave1 books).2.2.2 with
  | some ex => ((biblioWave1 books).1, (biblioWave1 books).2.2.1, some ex)
  | none =>
      ((biblioWave1 books).1 ++ (biblioWave2 oracle (biblioWave1 books).2.1).1,
       (biblioWave1 books).2.2.1,
       (biblioWave2 oracle (biblioWave1 books).2.1).2)

/-- One parsed item of lookup.py's `matching_books` (lines 185-190): the
unescaped title, the item link text, and the optional stripped call
number. -/
structure RssItem where
  title : String
  link : String
  call_num : Option String
deriving Repr, DecidableEq

/-- The first pass of lookup.py's `BiblioParser.__iter__` (lines 218-223):
items with a truthy call number are yielded as (title, call number) pairs;
for every other item, `async_record` extracts the item id from the link
(raising `UnstableAPIError` out of the generator on a malformed link) and
appends a pending request carrying the title. -/
def lookupWave1 : List RssItem → List (String × String) × List (Nat × String) × Option PyError
  | [] => ([], [], none)
  | it :: rest =>
      if pyTruthy it.call_num then
        let r := lookupWave1 rest
        ((it.title, it.call_num.getD "") :: r.1, r.2.1, r.2.2)
      else
        match extract_item_id it.link with
        | .error ex => ([], [], some ex)
        | .ok item_id =>
            let r := lookupWave1 rest
            (r.1, (item_id, it.title) :: r.2.1, r.2.2)

/-- The second pass of lookup.py's `BiblioParser.__iter__` (lines 225-228):
for each pending response, `get_call_number` (which may raise
`AttributeError`) then `yield (response._title, call_num)`. -/
def lookupWave2 (oracle : DetailOracle) : List (Nat × String) → List (String × String) × Option PyError
  | [] => ([], none)
  | (item_id, title) :: rest =>
      match get_call_number (oracle item_id) with
      | .error ex => ([], some ex)
      | .ok v =>
          let r := lookupWave2 oracle rest
          ((title, v) :: r.1, r.2)

/-- lookup.py's `BiblioParser.__iter__` (lines 209-228), starting from the
parsed catalog results: first pass, then, if it did not raise, the second
pass over pending requests. Returns ((title, call number) pairs yielded,
raised exception if any). -/
def lookupIter (oracle : DetailOracle) (items : List RssItem) :
    List (String × String) × Option PyError :=
  match (lookupWave1 items).2.2 with
  | some ex => ((lookupWave1 items).1, some ex)
  | none =>
      ((lookupWave1 items).1 ++ (lookupWave2 oracle (lookupWave1 items).2.1).1,
       (lookupWave2 oracle (lookupWave1 items).2.1).2)

/-- Concrete fixture: a well-formed full-record link, as in the docstring
example of `extract_item_id`. -/
def showLink : String := "https://seattle.bibliocommons.com/item/show/2837203030_moby_dick"

/-- Concrete fixture: a parsed search item with metadata and a usable link
but no call number (the detail-fetch case). -/
def mobyBook : Book := ⟨"Moby Dick", some "Melville, Herman", "A classic.", none, none, some showLink⟩

/-- Concrete fixture: a full-record fragment carrying a call number in the
expected `testid="callnum_branch"` / `span.value` shape. -/
def callnumFragment : List Node :=
  [Node.elem "div" [("testid", "callnum_branch")]
    [Node.elem "span" [("class", "value")] [Node.text "QA 76"]]]

/-- Detail oracle answering every full-record request with
`callnumFragment`. -/
def callnumOracle : DetailOracle := fun _ => callnumFragment

/-- Concrete fixture: a full-record fragment whose value span is empty. -/
def emptySpanFragment : List Node :=
  [Node.elem "div" [("testid", "callnum_branch")]
    [Node.elem "span" [("class", "value")] []]]

/-- Detail oracle answering every full-record request with
`emptySpanFragment`. -/
def emptySpanOracle : DetailOracle := fun _ => emptySpanFragment

/-- Concrete fixture: a search item already carrying a call number. -/
def bookResolved : Book := ⟨"Resolved A", none, "", some "X 100", none, none⟩

/-- Concrete fixture: a second search item already carrying a call number. -/
def bookResolved2 : Book := ⟨"Resolved B", none, "", some "Y 200", none, none⟩

/-- Concrete fixture: a search item without call number whose link path does
not match the `/item/show/` route. -/
def bookBadLink : Book := ⟨"Bad Link", none, "", none, none,
  some "https://seattle.bibliocommons.com/unexpected/path"⟩

/-- Concrete fixture: a search item with neither call number nor link. -/
def bookNoLink : Book := ⟨"No Link", none, "", none, none, none⟩

/-- Concrete fixture: a fragment with no `testid="callnum_branch"` node. -/
def bareFragment : List Node := [Node.elem "div" [] []]

/-- Concrete fixture: a parsed lookup.py search item without call number. -/
def lookupItemNoCall : RssItem := ⟨"Wave Two Title", showLink, none⟩

/-- Concrete fixture: a descriptor with an ISBN. -/
def isbnBook : BookDescription := ⟨"0140285601", "Cats Cradle", "Kurt Vonnegut Jr."⟩

/-- Concrete fixture: a descriptor without an ISBN. -/
def plainBook : BookDescription := ⟨"", "Moby Dick", "Herman Melville"⟩

/-- Concrete fixture: a descriptor whose title alone exceeds the query
ceiling. -/
def longBook : BookDescription := ⟨"", String.mk (List.replicate 950 'a'), "B"⟩

/-- Concrete fixture: twelve distinct descriptors. -/
def books12 : List BookDescription :=
  [⟨"1", "t", "a"⟩, ⟨"2", "t", "a"⟩, ⟨"3", "t", "a"⟩, ⟨"4", "t", "a"⟩,
   ⟨"5", "t", "a"⟩, ⟨"6", "t", "a"⟩, ⟨"7", "t", "a"⟩, ⟨"8", "t", "a"⟩,
   ⟨"9", "t", "a"⟩, ⟨"10", "t", "a"⟩, ⟨"11", "t", "a"⟩, ⟨"12", "t", "a"⟩]

/-- Grouping an empty list yields no chunks. -/
theorem grouper_nil (n : Nat) : grouper ([] : List α) n = [] := by
  have h : (n - 1) / n = 0 := by
    rcases Nat.eq_zero_or_pos n with h0 | h0
    · subst h0; rfl
    · exact Nat.div_eq_of_lt (by omega)
  simp [grouper, pyRange, h]

/-- Unfolding of `grouper` on a nonempty list: the first chunk is the first
`n` elements and the rest is the grouping of the remainder. -/
theorem grouper_cons (n : Nat) (hn : 0 < n) (l : List α) (hl : l ≠ []) :
    grouper l n = l.take n :: grouper (l.drop n) n := by
  have hL : 1 ≤ l.length := List.length_pos.mpr hl
  have hcount : (l.length - 0 + n - 1) / n = (l.length - 1) / n + 1 := by
    have h1 : l.length - 0 + n - 1 = (l.length - 1) + n := by omega
    rw [h1, Nat.add_div_right _ hn]
  have hcount2 : ((l.drop n).length - 0 + n - 1) / n = (l.length - 1) / n := by
    rw [List.length_drop]
    rcases Nat.lt_or_ge l.length n with h | h
    · have h1 : l.length - n - 0 + n - 1 = n - 1 := by omega
      rw [h1, Nat.div_eq_of_lt (by omega), Nat.div_eq_of_lt (by omega)]
    · have h1 : l.length - n - 0 + n - 1 = l.length - 1 := by omega
      rw [h1]
  simp only [grouper, pyRange, hcount, hcount2]
  rw [List.range_succ_eq_map]
  simp only [List.map_cons, List.map_map, Nat.zero_add, Nat.zero_mul, List.drop_zero]
  congr 1
  apply List.map_congr_left
  intro k _
  simp only [Function.comp_apply, Nat.succ_mul, List.drop_drop]
  congr 2
  omega

/-- Concatenating the chunks of `grouper` restores the input list. -/
theorem grouper_flatten (n : Nat) (hn : 0 < n) (l : List α) : (grouper l n).flatten = l := by
  by_cases hl : l = []
  · subst hl; rw [grouper_nil]; rfl
  · rw [grouper_cons n hn l hl, List.flatten_cons, grouper_flatten n hn (l.drop n)]
    exact List.take_append_drop n l
termination_by l.length
decreasing_by
  have := List.length_pos.mpr hl
  simp only [List.length_drop]
  omega

/-- Every chunk produced by `grouper` has at most `n` elements. -/
theorem grouper_length_le (l : List α) (n : Nat) : ∀ c ∈ grouper l n, c.length ≤ n := by
  intro c hc
  simp only [grouper, pyRange, List.mem_map] at hc
  obtain ⟨i, -, rfl⟩ := hc
  rw [List.length_take]
  exact min_le_left _ _

/-- First pass of the bibliocommons iterator over a concatenation whose
first part raises no exception: every component is the concatenation of
the two parts, and the exception is that of the second part. -/
theorem biblioWave1_append (xs ys : List Book) (h : (biblioWave1 xs).2.2.2 = none) :
    biblioWave1 (xs ++ ys) =
      ((biblioWave1 xs).1 ++ (biblioWave1 ys).1,
       (biblioWave1 xs).2.1 ++ (biblioWave1 ys).2.1,
       (biblioWave1 xs).2.2.1 ++ (biblioWave1 ys).2.2.1,
       (biblioWave1 ys).2.2.2) := by
  induction xs with
  | nil => simp [biblioWave1]
  | cons x xs ih =>
      cases h1 : pyTruthy x.call_number with
      | true =>
          simp only [biblioWave1, h1, if_true, List.cons_append, List.append_eq] at h ⊢
          rw [ih h]
      | false =>
          cases h2 : pyTruthy x.full_record_link with
          | false =>
              simp only [biblioWave1, h1, h2, Bool.not_false, if_false, if_true,
                List.cons_append, List.append_eq, Bool.false_eq_true] at h ⊢
              rw [ih h]
          | true =>
              cases hE : extract_item_id (x.full_record_link.getD "") with
              | error ex =>
                  simp [biblioWave1, h1, h2, hE] at h
              | ok item_id =>
                  simp only [biblioWave1, h1, h2, Bool.not_true, if_false, hE,
                    List.cons_append, List.append_eq, Bool.false_eq_true] at h ⊢
                  rw [ih h]

/-- First pass of the bibliocommons iterator over a concatenation whose
first part raises: the second part is never reached. -/
theorem biblioWave1_append_err (xs ys : List Book) (ex : PyError)
    (h : (biblioWave1 xs).2.2.2 = some ex) :
    biblioWave1 (xs ++ ys) = biblioWave1 xs := by
  induction xs with
  | nil => simp [biblioWave1] at h
  | cons x xs ih =>
      cases h1 : pyTruthy x.call_number with
      | true =>
          simp only [biblioWave1, h1, if_true, List.cons_append, List.append_eq] at h ⊢
          rw [ih h]
      | false =>
          cases h2 : pyTruthy x.full_record_link with
          | false =>
              simp only [biblioWave1, h1, h2, Bool.not_false, if_false, if_true,
                List.cons_append, List.append_eq, Bool.false_eq_true] at h ⊢
              rw [ih h]
          | true =>
              cases hE : extract_item_id (x.full_record_link.getD "") with
              | error ex2 =>
                  simp only [biblioWave1, h1, h2, Bool.not_true, if_false, hE,
                    List.cons_append, List.append_eq, Bool.false_eq_true]
              | ok item_id =>
                  simp only [biblioWave1, h1, h2, Bool.not_true, if_false, hE,
                    List.cons_append, List.append_eq, Bool.false_eq_true] at h ⊢
                  rw [ih h]

/-- A single item with no truthy call number and no truthy link yields
nothing, schedules nothing, and logs the missing-link warning. -/
theorem biblioWave1_single_skip (b : Book) (hcall : pyTruthy b.call_number = false)
    (hlink : pyTruthy b.full_record_link = false) :
    biblioWave1 [b] = ([], [], ["No link given for " ++ b.title ++ ", cannot get call #"], none) := by
  simp [biblioWave1, hcall, hlink]

/-- A single item with no truthy call number whose link fails item-id
extraction raises that exception out of the first pass. -/
theorem biblioWave1_single_abort (b : Book) (ex : PyError)
    (hcall : pyTruthy b.call_number = false) (hlink : pyTruthy b.full_record_link = true)
    (hex : extract_item_id (b.full_record_link.getD "") = .error ex) :
    biblioWave1 [b] = ([], [], [], some ex) := by
  simp [biblioWave1, hcall, hlink, hex]

/-- Every pair emitted by the first pass of the lookup.py iterator has a
non-empty call number: the `if call_num:` guard admits only truthy ones. -/
theorem lookupWave1_emitted_truthy (items : List RssItem) :
    ∀ tc ∈ (lookupWave1 items).1, tc.2 ≠ "" := by
  induction items with
  | nil =>
      intro tc h
      simp [lookupWave1] at h
  | cons it rest ih =>
      intro tc h
      cases h1 : pyTruthy it.call_num with
      | true =>
          simp only [lookupWave1, h1, if_true] at h
          rcases List.mem_cons.mp h with rfl | hmem
          · cases hc : it.call_num with
            | none => rw [hc] at h1; simp [pyTruthy] at h1
            | some s =>
                rw [hc] at h1
                simp [pyTruthy] at h1
                simp [hc]
                exact h1
          · exact ih tc hmem
      | false =>
          cases hE : extract_item_id it.link with
          | error ex => simp [lookupWave1, h1, hE] at h
          | ok item_id =>
              simp [lookupWave1, h1, hE] at h
              exact ih tc h

/-- Every pair emitted by the second pass of the lookup.py iterator carries
exactly a string extracted by `get_call_number` from some detail
response. -/
theorem lookupWave2_values (oracle : DetailOracle) (pend : List (Nat × String)) :
    ∀ tc ∈ (lookupWave2 oracle pend).1, ∃ i, get_call_number (oracle i) = .ok tc.2 := by
  induction pend with
  | nil =>
      intro tc h
      simp [lookupWave2] at h
  | cons p rest ih =>
      obtain ⟨item_id, title⟩ := p
      intro tc h
      cases hE : get_call_number (oracle item_id) with
      | error ex => simp [lookupWave2, hE] at h
      | ok v =>
          simp only [lookupWave2, hE] at h
          rcases List.mem_cons.mp h with rfl | hmem
          · exact ⟨item_id, by rw [hE]⟩
          · exact ih tc hmem

/-- Claim C1 (code bug). A search item whose parsed record lacks a call
number but has a valid full-record link schedules exactly one detail fetch
(the pending list for `[mobyBook]` is exactly one request for item
2837203030), and the detail response does yield the call number "QA 76";
but the iteration then raises `AttributeError` and emits nothing, because
`book.call_number = self.get_call_number(response)` (bibliocommons.py line
217) assigns to a field of the immutable `Book` namedtuple. The record
with the merged call number that the claim describes is never emitted. -/
theorem namedtuple_merge_crashes :
    (biblioWave1 [mobyBook]).2.1 = [(2837203030, mobyBook)]
    ∧ get_call_number (callnumOracle 2837203030) = .ok "QA 76"
    ∧ biblioIter callnumOracle [mobyBook] = ([], [], some .attributeError) := by
  decide

/-- Claim C2 (amended). A per-item `UnstableAPIError` is not scoped to the
item: when extracting the item id from the link of an item lacking a call
number fails, the exception propagates out of the iteration. Provided the
items before it raised nothing, the iteration ends with exactly the books
already yielded and the warnings already logged, the failing item is not
emitted (with or without a call number), and the items after it are never
processed. -/
theorem unstable_api_aborts_iteration (oracle : DetailOracle) (xs ys : List Book)
    (b : Book) (ex : PyError)
    (hcall : pyTruthy b.call_number = false)
    (hlink : pyTruthy b.full_record_link = true)
    (hex : extract_item_id (b.full_record_link.getD "") = .error ex)
    (hxs : (biblioWave1 xs).2.2.2 = none) :
    biblioIter oracle (xs ++ b :: ys)
      = ((biblioWave1 xs).1, (biblioWave1 xs).2.2.1, some ex) := by
  have hb := biblioWave1_single_abort b ex hcall hlink hex
  have hBy : biblioWave1 ([b] ++ ys) = ([], [], [], some ex) := by
    rw [biblioWave1_append_err [b] ys ex (by rw [hb]), hb]
  have hA := biblioWave1_append xs ([b] ++ ys) hxs
  rw [hBy] at hA
  simp only [List.singleton_append] at hA
  simp [biblioIter, hA]

/-- Counterexample to claim C2 as stated: with a resolved book on either
side of a bad-link book, the iteration aborts with `UnstableAPIError`
instead of continuing — the bad-link item gets no partial record and the
later resolved book is never emitted. -/
theorem unstable_api_abort_example :
    biblioIter callnumOracle [bookResolved, bookBadLink, bookResolved2]
      = ([bookResolved], [], some (.unstableAPI "RSS link format changed!"))
    ∧ bookResolved2 ∉ (biblioIter callnumOracle [bookResolved, bookBadLink, bookResolved2]).1 := by
  decide

/-- Concrete instantiation of `unstable_api_aborts_iteration`. -/
theorem unstable_api_aborts_iteration_witness :
    pyTruthy bookBadLink.call_number = false
    ∧ pyTruthy bookBadLink.full_record_link = true
    ∧ extract_item_id (bookBadLink.full_record_link.getD "")
        = .error (.unstableAPI "RSS link format changed!")
    ∧ biblioIter callnumOracle ([bookResolved] ++ bookBadLink :: [bookResolved2])
        = ((biblioWave1 [bookResolved]).1, (biblioWave1 [bookResolved]).2.2.1,
           some (.unstableAPI "RSS link format changed!")) :=
  ⟨by decide, by decide, by decide,
   unstable_api_aborts_iteration callnumOracle [bookResolved] [bookResolved2] bookBadLink
     (.unstableAPI "RSS link format changed!") (by decide) (by decide) (by decide) (by decide)⟩

/-- Claim C3. For every descriptor list and branch, the batch query builder
raises its size-violation error (a `ValueError` in the source, the
spec calls it `QueryTooLargeError`) exactly when the built query string
exceeds 900 characters, and returns the built string when it does not. -/
theorem bibliocommons_query_size_guard (books : List BookDescription) (branch : Option String) :
    (bibliocommons_query books branch
        = .error (.valueError "BiblioCommons queries are limited to 900 chars!")
      ↔ 900 < (built_query books branch).length)
    ∧ ((built_query books branch).length ≤ 900
      → bibliocommons_query books branch = .ok (built_query books branch)) := by
  by_cases h : 900 < (built_query books branch).length
  · simp [bibliocommons_query, h]
    try omega
  · simp [bibliocommons_query, h]
    try omega

set_option maxRecDepth 8192 in
/-- Concrete instantiation of `bibliocommons_query_size_guard`: a short
query is returned, and a descriptor with a 950-character title forces the
size-violation error. -/
theorem bibliocommons_query_size_guard_witness :
    ((built_query [isbnBook] none).length ≤ 900
      ∧ bibliocommons_query [isbnBook] none = .ok (built_query [isbnBook] none))
    ∧ (900 < (built_query [longBook] none).length
      ∧ bibliocommons_query [longBook] none
          = .error (.valueError "BiblioCommons queries are limited to 900 chars!")) :=
  ⟨⟨by decide, (bibliocommons_query_size_guard [isbnBook] none).2 (by decide)⟩,
   ⟨by decide, (bibliocommons_query_size_guard [longBook] none).1.mpr (by decide)⟩⟩

/-- Claim C4. `extract_item_id` maps the documented example link to
2837203030; raises `UnstableAPIError` ("RSS link format changed!") for any
link whose path does not start with `/item/show/`; raises `UnstableAPIError`
("slug format changed!") for any link whose last path segment has a
non-numeric part before the first underscore; and otherwise returns that
leading part as an integer. -/
theorem extract_item_id_spec :
    extract_item_id "https://x.example.com/item/show/2837203030_moby_dick" = .ok 2837203030
    ∧ (∀ link : String, pyStartsWith (urlsplitPath link) "/item/show/" = false
        → extract_item_id link = .error (.unstableAPI "RSS link format changed!"))
    ∧ (∀ link : String, pyStartsWith (urlsplitPath link) "/item/show/" = true
        → str_isdigit ((pySplit '_' ((pySplit '/' (urlsplitPath link)).getLastD "")).headD "") = false
        → extract_item_id link = .error (.unstableAPI "slug format changed!"))
    ∧ (∀ link : String, pyStartsWith (urlsplitPath link) "/item/show/" = true
        → str_isdigit ((pySplit '_' ((pySplit '/' (urlsplitPath link)).getLastD "")).headD "") = true
        → extract_item_id link
            = .ok (pyInt ((pySplit '_' ((pySplit '/' (urlsplitPath link)).getLastD "")).headD ""))) := by
  refine ⟨by decide, ?_, ?_, ?_⟩
  · intro link h1
    simp [extract_item_id, h1]
  · intro link h1 h2
    simp only [List.getLastD_eq_getLast?, List.headD_eq_head?] at h2
    simp [extract_item_id, h1, h2]
  · intro link h1 h2
    simp only [List.getLastD_eq_getLast?, List.headD_eq_head?] at h2
    simp [extract_item_id, h1, h2]

/-- Concrete instantiations of `extract_item_id_spec`: a wrong-route link
and a non-numeric slug each raise the matching schema-drift error. -/
theorem extract_item_id_spec_witness :
    (pyStartsWith (urlsplitPath "https://x.example.com/books/999") "/item/show/" = false
      ∧ extract_item_id "https://x.example.com/books/999"
          = .error (.unstableAPI "RSS link format changed!"))
    ∧ (pyStartsWith (urlsplitPath "https://x.example.com/item/show/moby_dick") "/item/show/" = true
      ∧ str_isdigit ((pySplit '_' ((pySplit '/' (urlsplitPath "https://x.example.com/item/show/moby_dick")).getLastD "")).headD "") = false
      ∧ extract_item_id "https://x.example.com/item/show/moby_dick"
          = .error (.unstableAPI "slug format changed!")) :=
  ⟨⟨by decide, extract_item_id_spec.2.1 "https://x.example.com/books/999" (by decide)⟩,
   ⟨by decide, by decide,
    extract_item_id_spec.2.2.1 "https://x.example.com/item/show/moby_dick" (by decide) (by decide)⟩⟩

/-- Claim C5. For every descriptor with a non-empty ISBN, `single_query`
returns exactly `identifier:(<isbn>)` — unparenthesized — and the title
and author fields have no effect on the result. -/
theorem single_query_isbn (book : BookDescription) (print_only : Bool)
    (h : book.isbn ≠ "") :
    single_query book print_only = "identifier:(" ++ book.isbn ++ ")"
    ∧ (∀ t a : String, single_query ⟨book.isbn, t, a⟩ print_only = single_query book print_only) := by
  constructor
  · simp [single_query, h, String.intercalate, String.intercalate.go]
  · intro t a
    simp [single_query, h, String.intercalate, String.intercalate.go]

/-- Concrete instantiation of `single_query_isbn`. -/
theorem single_query_isbn_witness :
    isbnBook.isbn ≠ ""
    ∧ single_query isbnBook true = "identifier:(" ++ isbnBook.isbn ++ ")" :=
  ⟨by decide, (single_query_isbn isbnBook true (by decide)).1⟩

/-- Claim C6. For every descriptor with an empty ISBN, `single_query`
conjoins `contributor:(<author>)` and `title:(<title>)` with `" AND "`,
adds `formatcode:(BK)` when `print_only` is true, and wraps the whole
multi-conjunct clause in one pair of parentheses. -/
theorem single_query_no_isbn (book : BookDescription) (print_only : Bool)
    (h : book.isbn = "") :
    single_query book print_only =
      if print_only then
        "(" ++ ("contributor:(" ++ book.author ++ ")") ++ " AND "
          ++ ("title:(" ++ book.title ++ ")") ++ " AND " ++ "formatcode:(BK)" ++ ")"
      else
        "(" ++ ("contributor:(" ++ book.author ++ ")") ++ " AND "
          ++ ("title:(" ++ book.title ++ ")") ++ ")" := by
  cases print_only <;>
    simp [single_query, h, String.intercalate, String.intercalate.go, String.append_assoc]

/-- Concrete instantiation of `single_query_no_isbn`. -/
theorem single_query_no_isbn_witness :
    plainBook.isbn = ""
    ∧ single_query plainBook true
        = "(" ++ ("contributor:(" ++ plainBook.author ++ ")") ++ " AND "
            ++ ("title:(" ++ plainBook.title ++ ")") ++ " AND " ++ "formatcode:(BK)" ++ ")" :=
  ⟨by decide, by
     have h := single_query_no_isbn plainBook true (by decide)
     simpa using h⟩

/-- Claim C7. For every descriptor list, the batching partitions the input
into consecutive chunks of at most 10 preserving order (flattening the
chunks restores the list, so each descriptor is in exactly one chunk),
exactly one search query is issued per chunk, and 12 descriptors produce
exactly two chunks of sizes 10 and 2. -/
theorem catalog_batches_partition (books : List BookDescription) (branch : Option String) :
    (grouper books 10).flatten = books
    ∧ (∀ chunk ∈ grouper books 10, chunk.length ≤ 10)
    ∧ (catalog_queries books branch).length = (grouper books 10).length
    ∧ (books.length = 12 → (grouper books 10).map List.length = [10, 2]) := by
  refine ⟨grouper_flatten 10 (by norm_num) books, grouper_length_le books 10, ?_, ?_⟩
  · simp [catalog_queries]
  · intro h12
    have h1 : books ≠ [] := by
      intro h; subst h; simp at h12
    rw [grouper_cons 10 (by norm_num) books h1]
    have hd1 : books.drop 10 ≠ [] := by
      intro h
      have := congrArg List.length h
      simp only [List.length_drop, h12, List.length_nil] at this
      omega
    rw [grouper_cons 10 (by norm_num) _ hd1]
    have hd2 : (books.drop 10).drop 10 = [] := by
      apply List.length_eq_zero.mp
      simp [List.length_drop, h12]
    rw [hd2, grouper_nil]
    simp [List.length_take, List.length_drop, h12]

/-- Concrete instantiation of `catalog_batches_partition` on twelve
descriptors. -/
theorem catalog_batches_partition_witness :
    books12.length = 12
    ∧ (grouper books12 10).map List.length = [10, 2]
    ∧ (grouper books12 10).flatten = books12 :=
  ⟨by decide, (catalog_batches_partition books12 none).2.2.2 (by decide),
   (catalog_batches_partition books12 none).1⟩

/-- Claim C8. A search item whose parsed record has neither a truthy call
number nor a truthy full-record link is dropped: provided the items before
it raised nothing, the iteration with the item emits exactly the records
of the iteration without it, ends with the same exception status, and logs
a warning naming the item's title. -/
theorem missing_link_item_dropped (oracle : DetailOracle) (xs ys : List Book) (b : Book)
    (hcall : pyTruthy b.call_number = false)
    (hlink : pyTruthy b.full_record_link = false)
    (hxs : (biblioWave1 xs).2.2.2 = none) :
    (biblioIter oracle (xs ++ b :: ys)).1 = (biblioIter oracle (xs ++ ys)).1
    ∧ (biblioIter oracle (xs ++ b :: ys)).2.2 = (biblioIter oracle (xs ++ ys)).2.2
    ∧ ("No link given for " ++ b.title ++ ", cannot get call #")
        ∈ (biblioIter oracle (xs ++ b :: ys)).2.1 := by
  have hb := biblioWave1_single_skip b hcall hlink
  have hbn : (biblioWave1 [b]).2.2.2 = none := by rw [hb]
  have hBy := biblioWave1_append [b] ys hbn
  rw [hb] at hBy
  have hA := biblioWave1_append xs ([b] ++ ys) hxs
  rw [hBy] at hA
  simp only [List.singleton_append] at hA
  have hC := biblioWave1_append xs ys hxs
  cases hy : (biblioWave1 ys).2.2.2 with
  | some ex => simp [biblioIter, hA, hC, hy]
  | none => simp [biblioIter, hA, hC, hy]

/-- Concrete instantiation of `missing_link_item_dropped`. -/
theorem missing_link_item_dropped_witness :
    pyTruthy bookNoLink.call_number = false
    ∧ pyTruthy bookNoLink.full_record_link = false
    ∧ (biblioWave1 [bookResolved]).2.2.2 = none
    ∧ (biblioIter callnumOracle ([bookResolved] ++ bookNoLink :: [bookResolved2])).1
        = (biblioIter callnumOracle ([bookResolved] ++ [bookResolved2])).1
    ∧ ("No link given for " ++ bookNoLink.title ++ ", cannot get call #")
        ∈ (biblioIter callnumOracle ([bookResolved] ++ bookNoLink :: [bookResolved2])).2.1 :=
  ⟨by decide, by decide, by decide,
   (missing_link_item_dropped callnumOracle [bookResolved] [bookResolved2] bookNoLink
      (by decide) (by decide) (by decide)).1,
   (missing_link_item_dropped callnumOracle [bookResolved] [bookResolved2] bookNoLink
      (by decide) (by decide) (by decide)).2.2⟩

/-- Claim C9 (amended). `get_call_number` returns the text of the value
span nested in the `testid="callnum_branch"` node; when that node is
absent — and likewise when its nested value span is absent — it fails by
raising `AttributeError` (the chained attribute access on `None`), not
`UnstableAPIError`. -/
theorem get_call_number_spec (fragment : List Node) :
    (findFirst (fun _ attrs => attrLookup attrs "testid" == some "callnum_branch") fragment = none
      → get_call_number fragment = .error .attributeError)
    ∧ (∀ n : Node,
        findFirst (fun _ attrs => attrLookup attrs "testid" == some "callnum_branch") fragment = some n
        → findFirst (fun tag attrs => tag == "span" && hasClass attrs "value") n.childrenOf = none
        → get_call_number fragment = .error .attributeError)
    ∧ (∀ n s : Node,
        findFirst (fun _ attrs => attrLookup attrs "testid" == some "callnum_branch") fragment = some n
        → findFirst (fun tag attrs => tag == "span" && hasClass attrs "value") n.childrenOf = some s
        → get_call_number fragment = .ok (textOf s)) := by
  refine ⟨?_, ?_, ?_⟩
  · intro h1
    simp [get_call_number, h1]
  · intro n h1 h2
    simp [get_call_number, h1, h2]
  · intro n s h1 h2
    simp [get_call_number, h1, h2]

/-- Counterexample to claim C9 as stated: on a fragment without the
expected node, `get_call_number` raises `AttributeError`, which is not an
`UnstableAPIError`. -/
theorem get_call_number_wrong_error :
    get_call_number bareFragment = .error .attributeError
    ∧ raisesUnstableAPI (get_call_number bareFragment) = false := by
  decide

/-- Concrete instantiation of `get_call_number_spec` on a well-formed
fragment. -/
theorem get_call_number_spec_witness :
    findFirst (fun _ attrs => attrLookup attrs "testid" == some "callnum_branch") callnumFragment
      = some (Node.elem "div" [("testid", "callnum_branch")]
          [Node.elem "span" [("class", "value")] [Node.text "QA 76"]])
    ∧ findFirst (fun tag attrs => tag == "span" && hasClass attrs "value")
        (Node.elem "div" [("testid", "callnum_branch")]
          [Node.elem "span" [("class", "value")] [Node.text "QA 76"]]).childrenOf
      = some (Node.elem "span" [("class", "value")] [Node.text "QA 76"])
    ∧ get_call_number callnumFragment = .ok "QA 76" :=
  ⟨rfl, rfl,
   (get_call_number_spec callnumFragment).2.2
     (Node.elem "div" [("testid", "callnum_branch")]
       [Node.elem "span" [("class", "value")] [Node.text "QA 76"]])
     (Node.elem "span" [("class", "value")] [Node.text "QA 76"]) rfl rfl⟩

/-- Claim C10 (amended). Provided every successful detail extraction
returns a non-empty string, every pair yielded by the lookup.py iteration
has a non-empty call number: the first wave yields only items whose parsed
call number is truthy, and the second wave yields exactly the extracted
strings, whose non-emptiness the code itself does not check. -/
theorem lookup_iter_truthy (oracle : DetailOracle) (items : List RssItem)
    (hok : ∀ i v, get_call_number (oracle i) = .ok v → v ≠ "") :
    ∀ tc ∈ (lookupIter oracle items).1, tc.2 ≠ "" := by
  intro tc h
  cases hE : (lookupWave1 items).2.2 with
  | some ex =>
      simp only [lookupIter, hE] at h
      exact lookupWave1_emitted_truthy items tc h
  | none =>
      simp only [lookupIter, hE] at h
      rcases List.mem_append.mp h with h1 | h2
      · exact lookupWave1_emitted_truthy items tc h1
      · obtain ⟨i, hi⟩ := lookupWave2_values oracle _ tc h2
        exact hok i tc.2 hi

/-- Counterexample to claim C10 as stated: a detail response whose value
span is empty makes the second wave emit a record whose call number is the
empty string, which is not truthy. -/
theorem lookup_iter_empty_call_number :
    (lookupIter emptySpanOracle [lookupItemNoCall]).1 = [("Wave Two Title", "")]
    ∧ pyTruthy (some "") = false := by
  decide

/-- Concrete instantiation of `lookup_iter_truthy`. -/
theorem lookup_iter_truthy_witness :
    ("Wave Two Title", "QA 76") ∈ (lookupIter callnumOracle [lookupItemNoCall]).1
    ∧ ("Wave Two Title", "QA 76").2 ≠ "" :=
  ⟨by decide,
   lookup_iter_truthy callnumOracle [lookupItemNoCall]
     (fun i v h => by
        have h2 : (Except.ok "QA 76" : Except PyError String) = .ok v := h
        cases h2
        decide)
     ("Wave Two Title", "QA 76") (by decide)⟩
